import Mathlib

/-!
Verification of the function-router core of the remix-deno repository.

The embedding models `functions/router.ts` in its two variants: the static
router (explicit registration of hello/api/time) and the dynamic router
(lazy directory discovery on first request), together with the pieces of
JavaScript semantics the routers rely on: `Headers` (case-insensitive
set/get), JSON response bodies (modelled structurally, identifying a body
with the value passed to `JSON.stringify`), thrown values (`instanceof
Error`, `String(v)`, and property access `v.message`, which raises a
TypeError on `null`/`undefined`), and `Map` registration. Impure
`new Date().toISOString()` timestamps are passed in as an explicit `now`
string.
-/

/-- Structural JSON values. A router body `JSON.stringify(x, null, 2)` is
identified with the structured value `x` itself. -/
inductive Json where
  | null
  | bool (b : Bool)
  | num (n : Int)
  | str (s : String)
  | arr (xs : List Json)
  | obj (fields : List (String × Json))

/-- Field lookup on a JSON object (first match), `none` on non-objects. -/
def jsonField : Json → String → Option Json
  | .obj fields, k => (fields.find? (fun p => p.1 == k)).map (fun p => p.2)
  | _, _ => none

def isBoolJson : Json → Bool
  | .bool _ => true
  | _ => false

def isStringJson : Json → Bool
  | .str _ => true
  | _ => false

/-- The Envelope shape of the spec: `success` a boolean, `message` a string,
`timestamp` a string (the ISO-8601 text produced by `toISOString`), with
`data` optional. -/
def isEnvelopeJson (j : Json) : Bool :=
  (match jsonField j "success" with | some x => isBoolJson x | none => false) &&
  (match jsonField j "message" with | some x => isStringJson x | none => false) &&
  (match jsonField j "timestamp" with | some x => isStringJson x | none => false)

/-- ASCII lowercasing of a string, character by character (the
case-insensitivity of HTTP header names). -/
def jsToLower (s : String) : String :=
  String.mk (s.data.map Char.toLower)

/-- JS `s.slice(1)`. -/
def strSlice1 (s : String) : String :=
  String.mk (s.data.drop 1)

def splitCharAux (sep : Char) : List Char → List Char → List (List Char)
  | [], acc => [acc.reverse]
  | c :: cs, acc =>
    if c = sep then acc.reverse :: splitCharAux sep cs []
    else splitCharAux sep cs (c :: acc)

/-- JS `s.split(sep)` for a one-character separator; yields `[""]` on the
empty string and keeps empty segments, as JS does. -/
def jsSplitChar (s : String) (sep : Char) : List String :=
  (splitCharAux sep s.data []).map String.mk

/-- JS `s.endsWith(suf)`. -/
def strEndsWith (s suf : String) : Bool :=
  s.data.reverse.take suf.data.length == suf.data.reverse

def listStartsWith : List Char → List Char → Bool
  | _, [] => true
  | [], _ :: _ => false
  | x :: xs, p :: ps => x == p && listStartsWith xs ps

def listReplaceFirst : List Char → List Char → List Char → List Char
  | [], _, _ => []
  | x :: xs, pat, repl =>
    if listStartsWith (x :: xs) pat then repl ++ (x :: xs).drop pat.length
    else x :: listReplaceFirst xs pat repl

/-- JS `s.replace(pat, repl)` with a string pattern: replaces only the
first occurrence of `pat`. -/
def replaceFirst (s pat repl : String) : String :=
  String.mk (listReplaceFirst s.data pat.data repl.data)

/-- A header list, as held by a JS `Headers` object. Lookups and updates are
case-insensitive in the header name. -/
abbrev HeaderList := List (String × String)

/-- `headers.get(k)` : first entry whose name matches case-insensitively. -/
def headerGet (hs : HeaderList) (k : String) : Option String :=
  (hs.find? (fun p => jsToLower p.1 == jsToLower k)).map (fun p => p.2)

/-- Remove every entry whose name matches `k` case-insensitively. -/
def headerDelete : HeaderList → String → HeaderList
  | [], _ => []
  | (k0, v0) :: rest, k =>
    if jsToLower k0 == jsToLower k then headerDelete rest k
    else (k0, v0) :: headerDelete rest k

/-- `headers.set(k, v)` : overwrite the first matching entry (dropping any
further duplicates), or append when no entry matches. -/
def headerSet : HeaderList → String → String → HeaderList
  | [], k, v => [(k, v)]
  | (k0, v0) :: rest, k, v =>
    if jsToLower k0 == jsToLower k then (k0, v) :: headerDelete rest k
    else (k0, v0) :: headerSet rest k v

/-- The request data the router reads: `req.method` and `url.pathname`. -/
structure Request where
  method : String
  pathname : String
deriving DecidableEq, Repr

/-- A response: status, statusText, headers, and an optional JSON body
(`none` is the `null` body of `new Response(null, ...)`). -/
structure Response where
  status : Nat
  statusText : String
  headers : HeaderList
  body : Option Json

/-- JavaScript values a handler may throw. -/
inductive JSValue where
  | nullv
  | undefv
  | errObj (message : String)
  | strv (s : String)
  | numv (n : Int)
deriving DecidableEq, Repr

/-- `v instanceof Error`. -/
def isErrorInstance : JSValue → Bool
  | .errObj _ => true
  | _ => false

/-- `String(v)` (also the text a template literal interpolates for `v`). -/
def jsToString : JSValue → String
  | .nullv => "null"
  | .undefv => "undefined"
  | .errObj m => "Error: " ++ m
  | .strv s => s
  | .numv n => toString n

/-- Property access `v.message`: raises a TypeError (modelled as `.error ()`)
on `null` and `undefined`; yields the `message` property of an Error object;
yields `undefined` on other primitives. -/
def getMessageProp : JSValue → Except Unit JSValue
  | .nullv => .error ()
  | .undefv => .error ()
  | .errObj m => .ok (.strv m)
  | .strv _ => .ok .undefv
  | .numv _ => .ok .undefv

/-- A registered handler, after awaiting: either a response, or the value it
threw (a rejected promise carries the thrown value). -/
abbrev Handler := Request → Except JSValue Response

/-- The registry `Map<string, FunctionInfo>`, keyed by function name. The
`FunctionInfo.name` field always equals the key and `path` is never read by
dispatch, so an entry is modelled by its handler alone. -/
abbrev Registry := List (String × Handler)

/-- `map.has(n)`. -/
def regHas (r : Registry) (n : String) : Bool :=
  r.any (fun p => p.1 == n)

/-- `map.get(n)`. -/
def regGet (r : Registry) (n : String) : Option Handler :=
  (r.find? (fun p => p.1 == n)).map (fun p => p.2)

/-- `map.set(n, h)` : overwrite an existing key or append a new one. -/
def regSet : Registry → String → Handler → Registry
  | [], n, h => [(n, h)]
  | (n0, h0) :: rest, n, h =>
    if n0 == n then (n0, h) :: rest
    else (n0, h0) :: regSet rest n h

/-- `map.size == 0` (`getRegisteredFunctions().length === 0`). -/
def regIsEmpty (r : Registry) : Bool :=
  r.isEmpty

/-- The `corsHeaders` constant of `handleRequest`. -/
def corsHeaders : HeaderList :=
  [("Access-Control-Allow-Origin", "*"),
   ("Access-Control-Allow-Methods", "GET, POST, PUT, DELETE, OPTIONS"),
   ("Access-Control-Allow-Headers", "Content-Type, Authorization")]

/-- `Object.entries(corsHeaders).forEach(([k, v]) => headers.set(k, v))`. -/
def mergeCors (hs : HeaderList) : HeaderList :=
  corsHeaders.foldl (fun acc p => headerSet acc p.1 p.2) hs

/-- Does `k` name one of the three CORS headers (case-insensitively)? -/
def isCorsName (k : String) : Bool :=
  corsHeaders.any (fun p => jsToLower p.1 == jsToLower k)

/-- The header record `{ "Content-Type": "application/json", ...corsHeaders }`. -/
def jsonHeaders : HeaderList :=
  ("Content-Type", "application/json") :: corsHeaders

/-- The body object of `createErrorResponse`: a `RouterResponse` with
`success: false` and no `data`. -/
def envelope (success : Bool) (message now : String) : Json :=
  .obj [("success", .bool success), ("message", .str message), ("timestamp", .str now)]

/-- `FunctionRouter.createErrorResponse(message, corsHeaders, status)`. -/
def createErrorResponse (message now : String) (status : Nat) : Response :=
  { status := status
    statusText := ""
    headers := jsonHeaders
    body := some (envelope false message now) }

/-- The `functionList` local of `createIndexResponse`: one record per
registered function, in registration order. The source computes this value
and then never uses it. -/
def functionList (r : Registry) : Json :=
  .arr (r.map (fun p =>
    .obj [("name", .str p.1),
          ("endpoint", .str ("/" ++ p.1)),
          ("description", .str ("Function handler for " ++ p.1))]))

/-- `FunctionRouter.createIndexResponse(corsHeaders)`. The `responseData`
object it stringifies is `{ success: true, message: "Hola", timestamp }`,
with no `data` field (the computed `functionList` is dropped). -/
def createIndexResponse (r : Registry) (now : String) : Response :=
  let _functionList := functionList r
  { status := 200
    statusText := ""
    headers := jsonHeaders
    body := some (envelope true "Hola" now) }

/-- `pathname.slice(1).split('/')[0]`. -/
def pathFunctionName (pathname : String) : String :=
  (jsSplitChar (strSlice1 pathname) '/').headD ""

/-- The static router catch: `error instanceof Error ? error.message :
String(error)`. -/
def errorText (e : JSValue) : String :=
  if isErrorInstance e then
    match e with
    | .errObj m => m
    | _ => ""
  else jsToString e

/-- `FunctionRouter.handleRequest` of the static router (router.ts,
Deno-Deploy variant): preflight short-circuit, index on root, first path
segment lookup, error-isolated invocation, CORS merge on passthrough. -/
def handleRequest (r : Registry) (req : Request) (now : String) : Response :=
  if req.method == "OPTIONS" then
    { status := 200, statusText := "", headers := corsHeaders, body := none }
  else if req.pathname == "/" || req.pathname == "" then
    createIndexResponse r now
  else
    let functionName := pathFunctionName req.pathname
    match regGet r functionName with
    | some h =>
      match h req with
      | .ok response =>
        { status := response.status
          statusText := response.statusText
          headers := mergeCors response.headers
          body := response.body }
      | .error e =>
        createErrorResponse ("Error executing function: " ++ errorText e) now 500
    | none =>
      createErrorResponse ("Function '" ++ functionName ++ "' not found") now 404

/-- `FunctionRouter.handleRequest` of the dynamic router. Identical to the
static one except its catch block formats `${error.message}` directly, so
when the thrown value has no readable `message` property the catch block
itself raises a TypeError and the returned promise rejects: that outcome is
`.error ()`. -/
def dynHandleRequest (r : Registry) (req : Request) (now : String) :
    Except Unit Response :=
  if req.method == "OPTIONS" then
    .ok { status := 200, statusText := "", headers := corsHeaders, body := none }
  else if req.pathname == "/" || req.pathname == "" then
    .ok (createIndexResponse r now)
  else
    let functionName := pathFunctionName req.pathname
    match regGet r functionName with
    | some h =>
      match h req with
      | .ok response =>
        .ok { status := response.status
              statusText := response.statusText
              headers := mergeCors response.headers
              body := response.body }
      | .error e =>
        match getMessageProp e with
        | .ok mv =>
          .ok (createErrorResponse ("Error executing function: " ++ jsToString mv) now 500)
        | .error _ => .error ()
    | none =>
      .ok (createErrorResponse ("Function '" ++ functionName ++ "' not found") now 404)

/-- `registerFunctions` of the static router: registers hello, api, time, in
that order, with the statically imported handlers. -/
def registerFunctions (helloHandler apiHandler timeHandler : Handler) : Registry :=
  regSet (regSet (regSet [] "hello" helloHandler) "api" apiHandler) "time" timeHandler

/-- A directory entry as yielded by `Deno.readDir`: its name and whether it
is a regular file. -/
structure DirEntry where
  name : String
  isFile : Bool

/-- Outcome of `await import(...)` for a candidate file: the module loaded
(with, optionally, a default export that is a function), or the import
rejected with a thrown value. -/
inductive LoadResult where
  | loaded (defaultFn : Option Handler)
  | failed (thrown : JSValue)

/-- A discovery candidate: the directory entry together with what importing
it would produce. -/
structure Candidate where
  entry : DirEntry
  load : LoadResult

/-- `FunctionRouter.discoverFunctions` of the dynamic router, over the
candidates the directory scan yields, extending registry `r`. Per-unit
failures are caught and logged; but the log line interpolates
`error.message`, so when the thrown value is `null`/`undefined` that line
itself raises a TypeError which escapes the per-unit catch into the
whole-scan catch, ending the loop early. -/
def discoverFunctions : List Candidate → Registry → Registry
  | [], r => r
  | c :: rest, r =>
    if c.entry.isFile && strEndsWith c.entry.name ".ts" then
      if c.entry.name == "router.ts" then
        discoverFunctions rest r
      else
        match c.load with
        | .loaded (some h) =>
          discoverFunctions rest (regSet r (replaceFirst c.entry.name ".ts" "") h)
        | .loaded none => discoverFunctions rest r
        | .failed v =>
          match getMessageProp v with
          | .ok _ => discoverFunctions rest r
          | .error _ => r
    else
      discoverFunctions rest r

/-- The mutable state of the dynamic router module: its registry, plus (for
specification purposes) the number of completed discovery passes. -/
structure ServerState where
  functions : Registry
  discoveryRuns : Nat

/-- One request through the dynamic default export `handler`: when the
registry is observed empty, run a discovery pass, then dispatch. -/
def serveStep (cands : List Candidate) (st : ServerState) (req : Request)
    (now : String) : Except Unit Response × ServerState :=
  let st' :=
    if regIsEmpty st.functions then
      { functions := discoverFunctions cands st.functions
        discoveryRuns := st.discoveryRuns + 1 }
    else st
  (dynHandleRequest st'.functions req now, st')

/-- Sequential processing of a list of requests by the dynamic handler. -/
def serveRequests (cands : List Candidate) (st : ServerState) :
    List (Request × String) → ServerState
  | [] => st
  | (req, now) :: rest => serveRequests cands (serveStep cands st req now).2 rest

/-- State of two concurrent first requests racing through the lazy-init
guard: the shared registry, the pass count, and what each request observed
when it read the guard (`none` until it has). -/
structure RaceState where
  functions : Registry
  discoveryRuns : Nat
  observedEmpty1 : Option Bool
  observedEmpty2 : Option Bool

/-- Atomic steps of the two racing requests. Each request first reads the
emptiness guard (`check`), then - after the suspension point that the
awaited discovery I/O introduces - runs a discovery pass if the guard it
observed was empty (`load`). -/
inductive RaceAct where
  | check1 | load1 | check2 | load2

def raceStep (cands : List Candidate) (st : RaceState) : RaceAct → RaceState
  | .check1 => { st with observedEmpty1 := some (regIsEmpty st.functions) }
  | .check2 => { st with observedEmpty2 := some (regIsEmpty st.functions) }
  | .load1 =>
    if st.observedEmpty1 = some true then
      { st with functions := discoverFunctions cands st.functions
                discoveryRuns := st.discoveryRuns + 1 }
    else st
  | .load2 =>
    if st.observedEmpty2 = some true then
      { st with functions := discoverFunctions cands st.functions
                discoveryRuns := st.discoveryRuns + 1 }
    else st

/-- Run an interleaving (schedule) of the two requests' steps. -/
def raceRun (cands : List Candidate) (st : RaceState) (sched : List RaceAct) :
    RaceState :=
  sched.foldl (raceStep cands) st

/-- Process start state: empty registry, no passes, neither guard read. -/
def raceInit : RaceState :=
  { functions := [], discoveryRuns := 0, observedEmpty1 := none, observedEmpty2 := none }

/-- A concrete well-behaved handler, used as a test input: 200, no headers,
empty body. -/
def okHandler : Handler :=
  fun _ => .ok { status := 200, statusText := "", headers := [], body := none }

/-- A concrete handler that throws the JS value `null`, used as a test input. -/
def nullThrowingHandler : Handler :=
  fun _ => .error .nullv

/-- Does a response body parse as an Envelope-shaped JSON object? An empty
(`null`) body does not. -/
def bodyIsEnvelope (resp : Response) : Bool :=
  match resp.body with
  | some j => isEnvelopeJson j
  | none => false

theorem beq_str_comm (a b : String) : (a == b) = (b == a) := by
  cases h : a == b <;> cases h2 : b == a <;> simp_all

theorem headerGet_nil (k : String) : headerGet [] k = none := rfl

theorem headerGet_cons (k0 v0 : String) (rest : HeaderList) (k : String) :
    headerGet ((k0, v0) :: rest) k =
      if jsToLower k0 == jsToLower k then some v0 else headerGet rest k := by
  unfold headerGet
  cases h : (jsToLower k0 == jsToLower k) <;> simp [List.find?, h]

theorem headerGet_headerDelete (hs : HeaderList) (k k' : String) :
    headerGet (headerDelete hs k) k' =
      if jsToLower k' == jsToLower k then none else headerGet hs k' := by
  induction hs with
  | nil =>
    cases h : (jsToLower k' == jsToLower k) <;> simp [headerDelete, headerGet, h]
  | cons p rest ih =>
    obtain ⟨k0, v0⟩ := p
    by_cases h1 : jsToLower k0 = jsToLower k
    · by_cases h2 : jsToLower k' = jsToLower k
      · simp [headerDelete, h1, h2, ih]
      · have h3 : ¬(jsToLower k0 = jsToLower k') := fun hc => h2 (by rw [← hc]; exact h1)
        have h2s : ¬(jsToLower k = jsToLower k') := fun hc => h2 hc.symm
        simp [headerDelete, headerGet_cons, h1, h2, h3, h2s, ih]
    · by_cases h2 : jsToLower k' = jsToLower k
      · have h4 : ¬(jsToLower k0 = jsToLower k') := fun hc => h1 (hc.trans h2)
        simp [headerDelete, headerGet_cons, h1, h2, h4, ih]
      · simp [headerDelete, headerGet_cons, h1, h2, ih]

theorem headerGet_headerSet (hs : HeaderList) (k v k' : String) :
    headerGet (headerSet hs k v) k' =
      if jsToLower k' == jsToLower k then some v else headerGet hs k' := by
  induction hs with
  | nil =>
    by_cases h : jsToLower k' = jsToLower k
    · simp [headerSet, headerGet, List.find?, h]
    · have h' : ¬(jsToLower k = jsToLower k') := fun hc => h hc.symm
      cases hb : (jsToLower k == jsToLower k') with
      | true => exact absurd (by simpa using hb) h'
      | false => simp [headerSet, headerGet, List.find?, h, hb]
  | cons p rest ih =>
    obtain ⟨k0, v0⟩ := p
    by_cases h1 : jsToLower k0 = jsToLower k
    · by_cases h2 : jsToLower k' = jsToLower k
      · have h5 : jsToLower k0 = jsToLower k' := h1.trans h2.symm
        simp [headerSet, headerGet_cons, headerGet_headerDelete, h1, h2, h5]
      · have h3 : ¬(jsToLower k0 = jsToLower k') := fun hc => h2 (by rw [← hc]; exact h1)
        have h2s : ¬(jsToLower k = jsToLower k') := fun hc => h2 hc.symm
        simp [headerSet, headerGet_cons, headerGet_headerDelete, h1, h2, h3, h2s]
    · by_cases h2 : jsToLower k' = jsToLower k
      · have h4 : ¬(jsToLower k0 = jsToLower k') := fun hc => h1 (hc.trans h2)
        simp [headerSet, headerGet_cons, h1, h2, h4, ih]
      · simp [headerSet, headerGet_cons, h1, h2, ih]

theorem isCorsName_eq (k : String) :
    isCorsName k = ((jsToLower "Access-Control-Allow-Origin" == jsToLower k) ||
                    (jsToLower "Access-Control-Allow-Methods" == jsToLower k) ||
                    (jsToLower "Access-Control-Allow-Headers" == jsToLower k)) := by
  simp [isCorsName, corsHeaders, List.any, Bool.or_assoc]

theorem headerGet_corsHeaders (k : String) :
    headerGet corsHeaders k =
      if jsToLower "Access-Control-Allow-Origin" == jsToLower k then some "*"
      else if jsToLower "Access-Control-Allow-Methods" == jsToLower k then
        some "GET, POST, PUT, DELETE, OPTIONS"
      else if jsToLower "Access-Control-Allow-Headers" == jsToLower k then
        some "Content-Type, Authorization"
      else none := by
  have e : corsHeaders = ("Access-Control-Allow-Origin", "*") ::
      ("Access-Control-Allow-Methods", "GET, POST, PUT, DELETE, OPTIONS") ::
      [("Access-Control-Allow-Headers", "Content-Type, Authorization")] := rfl
  rw [e, headerGet_cons, headerGet_cons, headerGet_cons, headerGet_nil]

theorem headerGet_mergeCors (hs : HeaderList) (k : String) :
    headerGet (mergeCors hs) k =
      if isCorsName k then headerGet corsHeaders k else headerGet hs k := by
  have e1 : mergeCors hs =
      headerSet (headerSet (headerSet hs "Access-Control-Allow-Origin" "*")
        "Access-Control-Allow-Methods" "GET, POST, PUT, DELETE, OPTIONS")
        "Access-Control-Allow-Headers" "Content-Type, Authorization" := rfl
  rw [e1, headerGet_headerSet, headerGet_headerSet, headerGet_headerSet,
      beq_str_comm (jsToLower k) (jsToLower "Access-Control-Allow-Headers"),
      beq_str_comm (jsToLower k) (jsToLower "Access-Control-Allow-Methods"),
      beq_str_comm (jsToLower k) (jsToLower "Access-Control-Allow-Origin"),
      isCorsName_eq, headerGet_corsHeaders]
  cases hbO : (jsToLower "Access-Control-Allow-Origin" == jsToLower k) <;>
    cases hbM : (jsToLower "Access-Control-Allow-Methods" == jsToLower k) <;>
      cases hbH : (jsToLower "Access-Control-Allow-Headers" == jsToLower k) <;>
        simp [hbO, hbM, hbH] <;>
          first
            | exact absurd ((beq_iff_eq.mp hbM).trans (beq_iff_eq.mp hbH).symm) (by decide)
            | exact absurd ((beq_iff_eq.mp hbO).trans (beq_iff_eq.mp hbM).symm) (by decide)
            | exact absurd ((beq_iff_eq.mp hbO).trans (beq_iff_eq.mp hbH).symm) (by decide)

theorem headerGet_mergeCors_origin (hs : HeaderList) :
    headerGet (mergeCors hs) "Access-Control-Allow-Origin" = some "*" := by
  rw [headerGet_mergeCors]; rfl

theorem headerGet_mergeCors_methods (hs : HeaderList) :
    headerGet (mergeCors hs) "Access-Control-Allow-Methods" =
      some "GET, POST, PUT, DELETE, OPTIONS" := by
  rw [headerGet_mergeCors]; rfl

theorem headerGet_mergeCors_allowed (hs : HeaderList) :
    headerGet (mergeCors hs) "Access-Control-Allow-Headers" =
      some "Content-Type, Authorization" := by
  rw [headerGet_mergeCors]; rfl

theorem regGet_eq_none_of_not_has (r : Registry) (n : String)
    (h : regHas r n = false) : regGet r n = none := by
  induction r with
  | nil => rfl
  | cons p rest ih =>
    obtain ⟨k, v⟩ := p
    cases hk : (k == n) with
    | true => simp [regHas, hk] at h
    | false =>
      have h' : regHas rest n = false := by simpa [regHas, hk] using h
      simpa [regGet, List.find?, hk] using ih h'

theorem isEnvelopeJson_envelope (b : Bool) (msg now : String) :
    isEnvelopeJson (envelope b msg now) = true := rfl

theorem serveRequests_stable (cands : List Candidate) (st : ServerState)
    (hne : regIsEmpty st.functions = false) (l : List (Request × String)) :
    serveRequests cands st l = st := by
  induction l with
  | nil => rfl
  | cons p rest ih =>
    obtain ⟨req, now⟩ := p
    simpa [serveRequests, serveStep, hne] using ih

/-- C1: claimed, an index request returns an Envelope whose data field
enumerates every registered function. In the code the enumeration
(`functionList`) is computed and then dropped: the index body is the bare
envelope `success/message/timestamp` with no `data` field at all, for the
statically registered registry hello/api/time. -/
theorem c1_index_response_drops_function_list (hH hA hT : Handler) :
    (handleRequest (registerFunctions hH hA hT) ⟨"GET", "/"⟩ "TS").body =
      some (envelope true "Hola" "TS") ∧
    jsonField (envelope true "Hola" "TS") "data" = none ∧
    functionList (registerFunctions hH hA hT) =
      .arr [ .obj [("name", .str "hello"), ("endpoint", .str "/hello"),
                   ("description", .str "Function handler for hello")],
             .obj [("name", .str "api"), ("endpoint", .str "/api"),
                   ("description", .str "Function handler for api")],
             .obj [("name", .str "time"), ("endpoint", .str "/time"),
                   ("description", .str "Function handler for time")]] :=
  ⟨rfl, rfl, rfl⟩

/-- C2: claimed, dispatch never propagates an unhandled exception for any
value the handler throws. The static router indeed converts a thrown `null`
into a 500 envelope, but the dynamic router's catch block formats
`error.message`, which itself raises a TypeError when the thrown value is
`null`: its dispatch rejects instead of producing a response. -/
theorem c2_dynamic_dispatch_propagates_null_throw :
    dynHandleRequest [("hello", nullThrowingHandler)] ⟨"GET", "/hello"⟩ "TS" =
      .error () ∧
    handleRequest [("hello", nullThrowingHandler)] ⟨"GET", "/hello"⟩ "TS" =
      createErrorResponse "Error executing function: null" "TS" 500 :=
  ⟨rfl, rfl⟩

/-- C3: a request whose method is not OPTIONS, whose path is not root, and
whose first segment is not registered yields exactly the 404 error envelope
with message `Function '<m>' not found`, which contains the segment m. -/
theorem c3_unregistered_function_404 (r : Registry) (req : Request) (now : String)
    (hm : req.method ≠ "OPTIONS") (hp1 : req.pathname ≠ "/") (hp2 : req.pathname ≠ "")
    (hreg : regHas r (pathFunctionName req.pathname) = false) :
    handleRequest r req now =
      createErrorResponse
        ("Function '" ++ pathFunctionName req.pathname ++ "' not found") now 404 ∧
    (handleRequest r req now).status = 404 ∧
    jsonField ((handleRequest r req now).body.getD .null) "success" = some (.bool false) ∧
    ∃ pre post,
      "Function '" ++ pathFunctionName req.pathname ++ "' not found" =
        pre ++ pathFunctionName req.pathname ++ post := by
  have hnone := regGet_eq_none_of_not_has r (pathFunctionName req.pathname) hreg
  have e : handleRequest r req now =
      createErrorResponse
        ("Function '" ++ pathFunctionName req.pathname ++ "' not found") now 404 := by
    simp [handleRequest, hm, hp1, hp2, hnone]
  exact ⟨e, by rw [e]; rfl, by rw [e]; rfl, "Function '", "' not found", rfl⟩

theorem c3_unregistered_function_404_witness :
    regHas [] (pathFunctionName "/weather") = false ∧
    handleRequest [] ⟨"GET", "/weather"⟩ "TS" =
      createErrorResponse "Function 'weather' not found" "TS" 404 :=
  ⟨rfl,
   (c3_unregistered_function_404 [] ⟨"GET", "/weather"⟩ "TS"
     (by decide) (by decide) (by decide) rfl).1⟩

/-- C4: an OPTIONS request short-circuits to a 200 response with the CORS
headers and an empty body, for every registry, path and timestamp: the
result is a constant that does not depend on the registry, so no registry
lookup or handler invocation can influence it. -/
theorem c4_options_preflight_short_circuit (r : Registry) (req : Request)
    (now : String) (h : req.method = "OPTIONS") :
    handleRequest r req now =
      { status := 200, statusText := "", headers := corsHeaders, body := none } := by
  simp [handleRequest, h]

theorem c4_options_preflight_short_circuit_witness :
    ("OPTIONS" : String) = "OPTIONS" ∧
    handleRequest [("hello", nullThrowingHandler)] ⟨"OPTIONS", "/hello"⟩ "TS" =
      { status := 200, statusText := "", headers := corsHeaders, body := none } :=
  ⟨rfl, c4_options_preflight_short_circuit [("hello", nullThrowingHandler)]
    ⟨"OPTIONS", "/hello"⟩ "TS" rfl⟩

/-- C5: when a registered handler returns a response, dispatch passes its
status, statusText and body through unchanged, and the final headers answer
every lookup with the CORS value on the three CORS names (the CORS value
wins even if the handler set that header) and with the handler's own value
on every other name. -/
theorem c5_handler_response_passthrough (r : Registry) (req : Request) (now : String)
    (h : Handler) (resp : Response)
    (hm : req.method ≠ "OPTIONS") (hp1 : req.pathname ≠ "/") (hp2 : req.pathname ≠ "")
    (hget : regGet r (pathFunctionName req.pathname) = some h)
    (hrun : h req = .ok resp) :
    (handleRequest r req now).status = resp.status ∧
    (handleRequest r req now).statusText = resp.statusText ∧
    (handleRequest r req now).body = resp.body ∧
    ∀ k, headerGet (handleRequest r req now).headers k =
      if isCorsName k then headerGet corsHeaders k else headerGet resp.headers k := by
  have e : handleRequest r req now =
      { status := resp.status, statusText := resp.statusText,
        headers := mergeCors resp.headers, body := resp.body } := by
    simp [handleRequest, hm, hp1, hp2, hget, hrun]
  exact ⟨by rw [e], by rw [e], by rw [e],
    fun k => by rw [e]; exact headerGet_mergeCors resp.headers k⟩

theorem c5_handler_response_passthrough_witness :
    regGet [("a", okHandler)] (pathFunctionName "/a/b/c") = some okHandler ∧
    okHandler ⟨"GET", "/a/b/c"⟩ =
      .ok { status := 200, statusText := "", headers := [], body := none } ∧
    (handleRequest [("a", okHandler)] ⟨"GET", "/a/b/c"⟩ "TS").status = 200 :=
  ⟨rfl, rfl,
   (c5_handler_response_passthrough [("a", okHandler)] ⟨"GET", "/a/b/c"⟩ "TS"
     okHandler { status := 200, statusText := "", headers := [], body := none }
     (by decide) (by decide) (by decide) rfl rfl).1⟩

/-- C6 counterexample: the OPTIONS preflight response - one of the
router-generated responses the claim covers - has an empty (`null`) body,
which is not an Envelope-shaped JSON object. -/
theorem c6_preflight_body_not_envelope :
    (handleRequest [] ⟨"OPTIONS", "/anything"⟩ "TS").body = none ∧
    bodyIsEnvelope (handleRequest [] ⟨"OPTIONS", "/anything"⟩ "TS") = false :=
  ⟨rfl, rfl⟩

/-- C6 as amended: the index, 404 and 500 responses each carry an
Envelope-shaped body, while the OPTIONS preflight response carries an empty
(`null`) body and no Envelope. -/
theorem c6_router_generated_bodies (r : Registry) (req : Request) (now : String) :
    (req.method = "OPTIONS" → (handleRequest r req now).body = none) ∧
    (req.method ≠ "OPTIONS" → (req.pathname = "/" ∨ req.pathname = "") →
      bodyIsEnvelope (handleRequest r req now) = true) ∧
    (req.method ≠ "OPTIONS" → req.pathname ≠ "/" → req.pathname ≠ "" →
      regHas r (pathFunctionName req.pathname) = false →
      bodyIsEnvelope (handleRequest r req now) = true) ∧
    (req.method ≠ "OPTIONS" → req.pathname ≠ "/" → req.pathname ≠ "" →
      ∀ h e, regGet r (pathFunctionName req.pathname) = some h → h req = .error e →
        bodyIsEnvelope (handleRequest r req now) = true) := by
  refine ⟨fun hm => by simp [handleRequest, hm],
          fun hm hp => ?_,
          fun hm hp1 hp2 hreg => ?_,
          fun hm hp1 hp2 h e hget hrun => ?_⟩
  · have e : handleRequest r req now = createIndexResponse r now := by
      rcases hp with hp | hp <;> simp [handleRequest, hm, hp]
    rw [e]; rfl
  · have hnone := regGet_eq_none_of_not_has r (pathFunctionName req.pathname) hreg
    have e : handleRequest r req now =
        createErrorResponse
          ("Function '" ++ pathFunctionName req.pathname ++ "' not found") now 404 := by
      simp [handleRequest, hm, hp1, hp2, hnone]
    rw [e]; rfl
  · have e2 : handleRequest r req now =
        createErrorResponse ("Error executing function: " ++ errorText e) now 500 := by
      simp [handleRequest, hm, hp1, hp2, hget, hrun]
    rw [e2]; rfl

theorem c6_router_generated_bodies_witness :
    regHas [] (pathFunctionName "/weather") = false ∧
    bodyIsEnvelope (handleRequest [] ⟨"GET", "/weather"⟩ "TS") = true :=
  ⟨rfl,
   (c6_router_generated_bodies [] ⟨"GET", "/weather"⟩ "TS").2.2.1
     (by decide) (by decide) (by decide) rfl⟩

/-- C7: every response the static dispatch produces - preflight, index,
404, 500 and the success passthrough - answers the three CORS header
lookups with the fixed values: wildcard origin, the supported method list,
and Content-Type and Authorization as allowed headers. -/
theorem c7_cors_on_every_response (r : Registry) (req : Request) (now : String) :
    headerGet (handleRequest r req now).headers "Access-Control-Allow-Origin" =
      some "*" ∧
    headerGet (handleRequest r req now).headers "Access-Control-Allow-Methods" =
      some "GET, POST, PUT, DELETE, OPTIONS" ∧
    headerGet (handleRequest r req now).headers "Access-Control-Allow-Headers" =
      some "Content-Type, Authorization" := by
  by_cases hm : req.method = "OPTIONS"
  · have e : handleRequest r req now =
        { status := 200, statusText := "", headers := corsHeaders, body := none } := by
      simp [handleRequest, hm]
    rw [e]; exact ⟨rfl, rfl, rfl⟩
  · by_cases hp1 : req.pathname = "/"
    · have e : handleRequest r req now = createIndexResponse r now := by
        simp [handleRequest, hm, hp1]
      rw [e]; exact ⟨rfl, rfl, rfl⟩
    · by_cases hp2 : req.pathname = ""
      · have e : handleRequest r req now = createIndexResponse r now := by
          simp [handleRequest, hm, hp2]
        rw [e]; exact ⟨rfl, rfl, rfl⟩
      · cases hget : regGet r (pathFunctionName req.pathname) with
        | none =>
          have e : handleRequest r req now =
              createErrorResponse
                ("Function '" ++ pathFunctionName req.pathname ++ "' not found")
                now 404 := by
            simp [handleRequest, hm, hp1, hp2, hget]
          rw [e]; exact ⟨rfl, rfl, rfl⟩
        | some h =>
          cases hrun : h req with
          | ok resp =>
            have e : handleRequest r req now =
                { status := resp.status, statusText := resp.statusText,
                  headers := mergeCors resp.headers, body := resp.body } := by
              simp [handleRequest, hm, hp1, hp2, hget, hrun]
            rw [e]
            exact ⟨headerGet_mergeCors_origin resp.headers,
                   headerGet_mergeCors_methods resp.headers,
                   headerGet_mergeCors_allowed resp.headers⟩
          | error e0 =>
            have e : handleRequest r req now =
                createErrorResponse
                  ("Error executing function: " ++ errorText e0) now 500 := by
              simp [handleRequest, hm, hp1, hp2, hget, hrun]
            rw [e]; exact ⟨rfl, rfl, rfl⟩

/-- C8: with a non-OPTIONS method, a root path ("/" or empty) delegates to
the index responder; otherwise the looked-up name is the text between the
leading slash and the next slash, so "/a/b/c" dispatches to the handler
registered under "a", and "//x" parses to the empty-string name - which the
static registration never registers - yielding the 404 message
`Function '' not found`. -/
theorem c8_first_segment_dispatch (r : Registry) (now : String) :
    (∀ m, m ≠ "OPTIONS" →
      handleRequest r ⟨m, "/"⟩ now = createIndexResponse r now ∧
      handleRequest r ⟨m, ""⟩ now = createIndexResponse r now) ∧
    pathFunctionName "/a/b/c" = "a" ∧
    pathFunctionName "//x" = "" ∧
    (∀ m h resp, m ≠ "OPTIONS" → regGet r "a" = some h →
      h ⟨m, "/a/b/c"⟩ = .ok resp →
      handleRequest r ⟨m, "/a/b/c"⟩ now =
        { status := resp.status, statusText := resp.statusText,
          headers := mergeCors resp.headers, body := resp.body }) ∧
    (∀ hH hA hT, regHas (registerFunctions hH hA hT) "" = false) ∧
    (∀ m, m ≠ "OPTIONS" → regHas r "" = false →
      handleRequest r ⟨m, "//x"⟩ now =
        createErrorResponse "Function '' not found" now 404) := by
  have cA : (("/a/b/c" : String) == "/") = false := rfl
  have cB : (("/a/b/c" : String) == "") = false := rfl
  have cC : (("//x" : String) == "/") = false := rfl
  have cD : (("//x" : String) == "") = false := rfl
  refine ⟨fun m hm => ⟨by simp [handleRequest, hm], by simp [handleRequest, hm]⟩,
          rfl, rfl,
          fun m h resp hm hget hrun => ?_,
          fun hH hA hT => rfl,
          fun m hm hreg => ?_⟩
  · have hget' : regGet r (pathFunctionName "/a/b/c") = some h := hget
    simp [handleRequest, hm, cA, cB, hget', hrun]
  · have hnone : regGet r (pathFunctionName "//x") = none :=
      regGet_eq_none_of_not_has r "" hreg
    simp [handleRequest, hm, cC, cD, hnone]
    rfl

theorem c8_first_segment_dispatch_witness :
    ("GET" : String) ≠ "OPTIONS" ∧
    regGet [("a", okHandler)] "a" = some okHandler ∧
    okHandler ⟨"GET", "/a/b/c"⟩ =
      .ok { status := 200, statusText := "", headers := [], body := none } ∧
    regHas [("a", okHandler)] "" = false ∧
    handleRequest [("a", okHandler)] ⟨"GET", "/a/b/c"⟩ "TS" =
      { status := 200, statusText := "", headers := mergeCors [], body := none } ∧
    handleRequest [("a", okHandler)] ⟨"GET", "//x"⟩ "TS" =
      createErrorResponse "Function '' not found" "TS" 404 :=
  ⟨by decide, rfl, rfl, rfl,
   (c8_first_segment_dispatch [("a", okHandler)] "TS").2.2.2.1 "GET" okHandler
     { status := 200, statusText := "", headers := [], body := none }
     (by decide) rfl rfl,
   (c8_first_segment_dispatch [("a", okHandler)] "TS").2.2.2.2.2 "GET"
     (by decide) rfl⟩

/-- C9: claimed, one failing unit never prevents the remaining units from
registering. A unit whose import rejects with an Error object is indeed
skipped and the rest register; but a unit whose import rejects with `null`
makes the failure log line itself throw, aborting the scan, so the valid
unit after it is never registered. -/
theorem c9_discovery_abort_on_null_failure :
    discoverFunctions
      [⟨⟨"bad.ts", true⟩, .failed .nullv⟩,
       ⟨⟨"good.ts", true⟩, .loaded (some okHandler)⟩] [] = [] ∧
    discoverFunctions
      [⟨⟨"bad.ts", true⟩, .failed (.errObj "boom")⟩,
       ⟨⟨"good.ts", true⟩, .loaded (some okHandler)⟩] [] =
      [("good", okHandler)] :=
  ⟨rfl, rfl⟩

/-- C10 counterexample: discovery does not happen at most once per process.
Sequentially, when the scan registers nothing (empty candidate list), the
emptiness guard re-triggers a full discovery pass on every request: two
requests yield two passes. And under two concurrent first requests, both
guard reads can precede both discovery passes, so even a scan that does
register a function runs twice. -/
theorem c10_discovery_can_run_twice :
    (serveRequests [] ⟨[], 0⟩
      [(⟨"GET", "/hello"⟩, "T1"), (⟨"GET", "/hello"⟩, "T2")]).discoveryRuns = 2 ∧
    (raceRun [⟨⟨"hello.ts", true⟩, .loaded (some okHandler)⟩] raceInit
      [.check1, .check2, .load1, .load2]).discoveryRuns = 2 :=
  ⟨rfl, rfl⟩

/-- C10 as amended: the emptiness guard triggers discovery on any request
that observes an empty registry. When requests are handled sequentially and
the discovery pass registers at least one function, discovery runs at most
once and the registry is afterwards never mutated (it is either still empty
or exactly the discovered registry); the guard does not serialize
concurrent first requests. -/
theorem c10_single_pass_when_sequential_and_nonempty (cands : List Candidate)
    (reqs : List (Request × String))
    (hne : regIsEmpty (discoverFunctions cands []) = false) :
    (serveRequests cands ⟨[], 0⟩ reqs).discoveryRuns ≤ 1 ∧
    ((serveRequests cands ⟨[], 0⟩ reqs).functions = [] ∨
     (serveRequests cands ⟨[], 0⟩ reqs).functions = discoverFunctions cands []) := by
  cases reqs with
  | nil => exact ⟨by simp [serveRequests], .inl rfl⟩
  | cons p rest =>
    obtain ⟨req, now⟩ := p
    have e2 : serveRequests cands ⟨[], 0⟩ ((req, now) :: rest) =
        serveRequests cands ⟨discoverFunctions cands [], 1⟩ rest := by
      simp [serveRequests, serveStep, regIsEmpty]
    rw [e2, serveRequests_stable cands ⟨discoverFunctions cands [], 1⟩ hne rest]
    exact ⟨le_refl 1, .inr rfl⟩

theorem c10_single_pass_witness :
    regIsEmpty (discoverFunctions
      [⟨⟨"hello.ts", true⟩, .loaded (some okHandler)⟩] []) = false ∧
    (serveRequests [⟨⟨"hello.ts", true⟩, .loaded (some okHandler)⟩] ⟨[], 0⟩
      [(⟨"GET", "/hello"⟩, "T1"), (⟨"GET", "/hello"⟩, "T2")]).discoveryRuns ≤ 1 :=
  ⟨rfl,
   (c10_single_pass_when_sequential_and_nonempty
     [⟨⟨"hello.ts", true⟩, .loaded (some okHandler)⟩]
     [(⟨"GET", "/hello"⟩, "T1"), (⟨"GET", "/hello"⟩, "T2")] rfl).1⟩
